import Mathlib

set_option maxHeartbeats 1000000

/- Verification of the vehicle-abstraction and longitudinal-planning layer
   (selfdrive/car and selfdrive/controls/lib) against its specification.
   Numeric code is embedded over the rationals (the Python floats carry exact
   decimal constants at every point the claims exercise); fallible paths are
   embedded with Except. -/

/-- clip from common/numpy_fast.py: clamp x into the interval from lo to hi,
written in the source as max(lo, min(hi, x)). -/
def clip (x lo hi : ℚ) : ℚ := max lo (min hi x)

/-- interp from common/numpy_fast.py, scalar case: piecewise-linear
interpolation of x over breakpoints xp with values fp.  The source advances
hi while x is strictly greater than xp[hi], then returns fp[-1] past the
right end, fp[0] at or before the left end, and the linear blend between
the two neighbouring samples otherwise.  out-of-range indexing cannot occur
for the nonempty tables this repository passes; getD supplies a default. -/
def interp (x : ℚ) (xp fp : List ℚ) : ℚ :=
  let n := xp.length
  let hi := (xp.takeWhile (fun v => decide (x > v))).length
  let low := hi - 1
  if hi = n ∧ x > xp.getD low 0 then fp.getD (n - 1) 0
  else if hi = 0 then fp.getD 0 0
  else
    (x - xp.getD low 0) * (fp.getD hi 0 - fp.getD low 0) /
      (xp.getD hi 0 - xp.getD low 0) + fp.getD low 0

/-- Python round(x, 1) on exact rationals: scale by 10, round half to even
(the Python 3 rounding mode), divide by 10. -/
def pyRound1 (q : ℚ) : ℚ :=
  let x := 10 * q
  let f : ℤ := ⌊x⌋
  let r := x - (f : ℚ)
  let n : ℤ :=
    if r > 1/2 then f + 1
    else if r < 1/2 then f
    else if f % 2 = 0 then f else f + 1
  (n : ℚ) / 10

/-- Python modulo on rationals for a positive divisor: x - d * floor(x / d),
matching the sign convention of the float % operator used in
drive_helpers.update_v_cruise. -/
def pymod (x d : ℚ) : ℚ := x - d * (⌊x / d⌋ : ℚ)

/- ---------------------------------------------------------------------
   selfdrive/car/interfaces.py: get_torque_params (lines 48-69)
   --------------------------------------------------------------------- -/

/-- The three layered torque configuration documents read by
get_torque_params: the identity-substitution table, the base table (whose
params.yaml document also carries the legend row, modelled here as the
separate field legend since its value is a list of column names rather
than a numeric row), and the override table. -/
structure TorqueConfig where
  sub : List (String × String)
  params : List (String × List ℚ)
  override : List (String × List ℚ)
  legend : List String

/-- The substitution step of get_torque_params: candidate = sub[candidate]
when present, else unchanged. -/
def resolveSub (cfg : TorqueConfig) (candidate : String) : String :=
  match cfg.sub.lookup candidate with
  | some c => c
  | none => candidate

/-- get_torque_params from selfdrive/car/interfaces.py: resolve the candidate
through the substitution table, raise RuntimeError when the resolved name is
defined in more than one of the three tables, then return the override row
if present, else the base row, else raise NotImplementedError.  The returned
dict comprehension over the legend is modelled as the zip of the legend with
the chosen row. -/
def get_torque_params (cfg : TorqueConfig) (candidate : String) :
    Except String (List (String × ℚ)) :=
  let c := resolveSub cfg candidate
  let cnt :=
    (if (cfg.sub.lookup c).isSome then 1 else 0) +
    (if (cfg.params.lookup c).isSome then 1 else 0) +
    (if (cfg.override.lookup c).isSome then 1 else 0)
  if cnt > 1 then .error ("RuntimeError: candidate is defined twice in torque config")
  else
    match cfg.override.lookup c with
    | some out => .ok (cfg.legend.zip out)
    | none =>
      match cfg.params.lookup c with
      | some out => .ok (cfg.legend.zip out)
      | none => .error ("NotImplementedError: did not find torque params for candidate")

/- ---------------------------------------------------------------------
   selfdrive/car/interfaces.py: CarStateBase blinker state (lines 457-467
   and 517-538)
   --------------------------------------------------------------------- -/

/-- The blinker-related mutable state of CarStateBase.  CarStateBase.__init__
sets both counters to 0 and both previous-stalk flags to False. -/
structure BlinkerState where
  left_blinker_cnt : ℤ
  right_blinker_cnt : ℤ
  left_blinker_prev : Bool
  right_blinker_prev : Bool
  deriving DecidableEq

/-- The blinker fields of a freshly constructed CarStateBase. -/
def initBlinkerState : BlinkerState := ⟨0, 0, false, false⟩

/-- CarStateBase.update_blinker_from_stalk: the two stalk blocks run in
source order (the left block zeroes the right counter and re-arms the left
counter on a rising edge, then the right block symmetrically, overwriting
the left counter with 0 when the right stalk is held), then both counters
decrement with a floor of 0, the previous-stalk flags latch the inputs, and
the outputs are stalk-held OR counter positive, per side.  Returns the new
state and the (left, right) outputs. -/
def update_blinker_from_stalk (st : BlinkerState) (blinker_time : ℤ)
    (left_blinker_stalk right_blinker_stalk : Bool) :
    BlinkerState × Bool × Bool :=
  let l1 : ℤ :=
    if left_blinker_stalk = true ∧ st.left_blinker_prev = false then blinker_time
    else st.left_blinker_cnt
  let r1 : ℤ := if left_blinker_stalk = true then 0 else st.right_blinker_cnt
  let l2 : ℤ := if right_blinker_stalk = true then 0 else l1
  let r2 : ℤ :=
    if right_blinker_stalk = true ∧ st.right_blinker_prev = false then blinker_time
    else r1
  let l3 := max (l2 - 1) 0
  let r3 := max (r2 - 1) 0
  (⟨l3, r3, left_blinker_stalk, right_blinker_stalk⟩,
   left_blinker_stalk || decide (0 < l3),
   right_blinker_stalk || decide (0 < r3))

/-- Fold update_blinker_from_stalk over a sequence of
(blinker_time, left stalk, right stalk) inputs starting from the state of a
freshly constructed CarStateBase. -/
def runBlinkerStalk (inputs : List (ℤ × Bool × Bool)) : BlinkerState :=
  inputs.foldl (fun st i => (update_blinker_from_stalk st i.1 i.2.1 i.2.2).1)
    initBlinkerState

/- ---------------------------------------------------------------------
   selfdrive/car/interfaces.py: CarInterfaceBase.create_common_events
   (lines 379-440) and the constants it reads
   --------------------------------------------------------------------- -/

/-- Conversions.KPH_TO_MS from common/conversions.py. -/
def KPH_TO_MS : ℚ := 5/18

/-- V_CRUISE_MAX from drive_helpers.py (kph). -/
def V_CRUISE_MAX : ℚ := 180

/-- V_CRUISE_MIN from drive_helpers.py (kph). -/
def V_CRUISE_MIN : ℚ := 8

/-- MAX_CTRL_SPEED from interfaces.py: (V_CRUISE_MAX + 4) * KPH_TO_MS. -/
def MAX_CTRL_SPEED : ℚ := (V_CRUISE_MAX + 4) * KPH_TO_MS

/-- DT_CTRL from common/realtime.py: the 100 Hz control period. -/
def DT_CTRL : ℚ := 1/100

/-- Gear shifter positions used by create_common_events. -/
inductive GearShifter
  | unknown | park | drive | neutral | reverse | sport | low | brake | eco | manumatic
  deriving DecidableEq

/-- The car events create_common_events can add. -/
inductive EventName
  | reverseGear | wrongCarMode | espDisabled | stockFcw | stockAeb | speedTooHigh
  | wrongCruiseMode | parkBrake | steerTempUnavailableSilent | steerTempUnavailable
  | steerUnavailable | pcmEnable | pcmDisable
  deriving DecidableEq

/-- The steering-fault bookkeeping of CarInterfaceBase (set in __init__ at
lines 187-190 to 0 / True / False and updated by create_common_events). -/
structure SteerWarnState where
  steering_unpressed : ℤ
  silent_steer_warning : Bool
  no_steer_warning : Bool
  deriving DecidableEq

/-- The CarState fields create_common_events reads. -/
structure CommonCsOut where
  gearShifter : GearShifter
  cruiseStateAvailable : Bool
  cruiseStateEnabled : Bool
  cruiseStateNonAdaptive : Bool
  espDisabled : Bool
  stockFcw : Bool
  stockAeb : Bool
  vEgo : ℚ
  parkingBrake : Bool
  steeringPressed : Bool
  steerFaultTemporary : Bool
  steerFaultPermanent : Bool
  standstill : Bool
  deriving DecidableEq

/-- The permanent-and-temporary steering fault block of create_common_events
(interfaces.py lines 409-424): first the unpressed counter updates, then on a
temporary fault either the no-steer warning latches (driver pressing and the
fault is fresh or a warning already carries over) adding no event, or the
silent event is added when the silent flag is latched, at standstill, or
within int(1.5 / DT_CTRL) cycles of the last press, or else the loud event
is added.  Without a temporary fault both warning flags clear.  Returns the
events this block adds (in order) and the updated bookkeeping state. -/
def steer_fault_block (st : SteerWarnState) (prevSteerFaultTemporary : Bool)
    (steeringPressed steerFaultTemporary standstill : Bool) :
    List EventName × SteerWarnState :=
  let steering_unpressed : ℤ := if steeringPressed = true then 0 else st.steering_unpressed + 1
  if steerFaultTemporary = true then
    if steeringPressed = true ∧ (prevSteerFaultTemporary = false ∨ st.no_steer_warning = true) then
      ([], ⟨steering_unpressed, st.silent_steer_warning, true⟩)
    else
      if st.silent_steer_warning = true ∨ standstill = true ∨
          steering_unpressed < ⌊(3/2 : ℚ) / DT_CTRL⌋ then
        ([EventName.steerTempUnavailableSilent], ⟨steering_unpressed, true, false⟩)
      else
        ([EventName.steerTempUnavailable], ⟨steering_unpressed, st.silent_steer_warning, false⟩)
  else ([], ⟨steering_unpressed, false, false⟩)

/-- CarInterfaceBase.create_common_events (lines 379-440), with the gear and
door checks that are commented out in the source omitted.  Each events.add
call contributes one conditional singleton segment, concatenated in source
order; the steering-fault block sits between the parking-brake check and the
permanent-fault check exactly as in the source.  prevSteerFaultTemporary and
prevCruiseEnabled are the previous-cycle CarState fields read through
self.CS.out.  Returns the event list and the updated steering bookkeeping. -/
def create_common_events (st : SteerWarnState)
    (prevSteerFaultTemporary prevCruiseEnabled : Bool)
    (cs : CommonCsOut) (pcm_enable : Bool) : List EventName × SteerWarnState :=
  let sb := steer_fault_block st prevSteerFaultTemporary
    cs.steeringPressed cs.steerFaultTemporary cs.standstill
  let events :=
    (if cs.gearShifter = GearShifter.reverse then [EventName.reverseGear] else []) ++
    (if cs.cruiseStateAvailable = false then [EventName.wrongCarMode] else []) ++
    (if cs.espDisabled = true then [EventName.espDisabled] else []) ++
    (if cs.stockFcw = true then [EventName.stockFcw] else []) ++
    (if cs.stockAeb = true then [EventName.stockAeb] else []) ++
    (if cs.vEgo > MAX_CTRL_SPEED then [EventName.speedTooHigh] else []) ++
    (if cs.cruiseStateNonAdaptive = true then [EventName.wrongCruiseMode] else []) ++
    (if cs.parkingBrake = true then [EventName.parkBrake] else []) ++
    sb.1 ++
    (if cs.steerFaultPermanent = true then [EventName.steerUnavailable] else []) ++
    (if pcm_enable = true then
      (if cs.cruiseStateEnabled = true ∧ prevCruiseEnabled = false then [EventName.pcmEnable]
       else if cs.cruiseStateEnabled = false then [EventName.pcmDisable]
       else [])
     else []) ++
    (if cs.cruiseStateEnabled = true ∧ cs.gearShifter = GearShifter.drive ∧
        cs.vEgo > 5 * KPH_TO_MS then [EventName.pcmEnable] else [])
  (events, sb.2)

/- ---------------------------------------------------------------------
   selfdrive/car/hyundai/interface.py: bus topology and safety profile
   (lines 323-352)
   --------------------------------------------------------------------- -/

/-- The live CAN fingerprint restricted to the buses the claims exercise:
the sets of message IDs observed on buses 0, 1 and 2. -/
structure Fingerprint where
  bus0 : List ℕ
  bus1 : List ℕ
  bus2 : List ℕ

/-- sccBus derivation (hyundai/interface.py line 329): 0 if ID 1056 on bus 0,
else 1 if 1056 on bus 1 and 1296 absent from bus 1, else 2 if 1056 on bus 2,
else -1. -/
def sccBus (fp : Fingerprint) : ℤ :=
  if 1056 ∈ fp.bus0 then 0
  else if 1056 ∈ fp.bus1 ∧ 1296 ∉ fp.bus1 then 1
  else if 1056 ∈ fp.bus2 then 2
  else -1

/-- mdpsBus derivation (line 327): 1 if ID 593 on bus 1 without 1296, else 0. -/
def mdpsBus (fp : Fingerprint) : ℤ :=
  if 593 ∈ fp.bus1 ∧ 1296 ∉ fp.bus1 then 1 else 0

/-- radarOffCan (line 339): the SCC bus resolved to -1. -/
def radarOffCan (fp : Fingerprint) : Bool := sccBus fp == -1

/-- pcmCruise (line 340): the negation of radarOffCan. -/
def pcmCruise (fp : Fingerprint) : Bool := ! radarOffCan fp

/-- The two safety profiles _get_params can leave in ret.safetyConfigs. -/
inductive SafetyModel
  | hyundaiLegacy | hyundaiCommunity
  deriving DecidableEq

/-- Safety profile selection: the default hyundaiLegacy (line 45) is replaced
by hyundaiCommunity (line 351-352) when radar is off-CAN, the MDPS bus is 1,
openpilot longitudinal control is enabled, the SCC bus is 1, or the persisted
MadModeEnabled flag is set.  openpilotLongitudinalControl is the persisted
LongControlEnabled flag read at line 42; both persisted flags enter as
parameters. -/
def hyundaiSafetyModel (fp : Fingerprint)
    (openpilotLongitudinalControl madModeEnabled : Bool) : SafetyModel :=
  if radarOffCan fp = true ∨ mdpsBus fp = 1 ∨ openpilotLongitudinalControl = true ∨
      sccBus fp = 1 ∨ madModeEnabled = true
  then .hyundaiCommunity else .hyundaiLegacy

/- ---------------------------------------------------------------------
   selfdrive/car/hyundai/radar_interface.py: RadarInterface._update,
   single-object mode (lines 117-144)
   --------------------------------------------------------------------- -/

/-- One radar track (cereal RadarPoint restricted to the fields this mode
sets).  aRel and yvRel are written as float nan by the source, modelled as
none. -/
structure RadarPoint where
  trackId : ℕ
  dRel : ℚ
  yRel : ℚ
  vRel : ℚ
  aRel : Option ℚ
  yvRel : Option ℚ
  measured : Bool
  deriving DecidableEq

/-- A freshly constructed RadarPoint message (all numeric fields zero). -/
def RadarPoint.new : ℕ → RadarPoint :=
  fun id => ⟨id, 0, 0, 0, some 0, some 0, false⟩

/-- The mutable state of RadarInterface in single-object mode: the track
dictionary (an association list keyed by target id; only key 0 is ever
used), the monotonically increasing track id counter, and the previous
cycle distance (all initialised to empty / 0 / 0 in __init__). -/
structure RadarState where
  pts : List (ℕ × RadarPoint)
  track_id : ℕ
  prev_dist : ℚ
  deriving DecidableEq

/-- The SCC11 signals the single-object branch reads. -/
structure Scc11 where
  objStatus : Bool
  objDist : ℚ
  objLatPos : ℚ
  objRelSpd : ℚ
  deriving DecidableEq

/-- The single-object branch of RadarInterface._update (radar_interface.py
lines 117-144; new_radar is False in this build).  On a valid reading: clear
all tracks when the distance jumps by more than clip(dist/20, 1, 5) from the
previous cycle distance, record the new distance, create the slot-0 track
with a fresh id when absent, then overwrite its measured fields.  On an
invalid reading clear all tracks.  Returns the new state and the point list
of the emitted RadarData. -/
def RadarInterface.update (st : RadarState) (m : Scc11) :
    RadarState × List RadarPoint :=
  if m.objStatus = true then
    let dist := m.objDist
    let pts := if |dist - st.prev_dist| > clip (dist / 20) 1 5 then [] else st.pts
    let created :=
      if (pts.lookup 0).isNone then
        (pts ++ [(0, RadarPoint.new st.track_id)], st.track_id + 1)
      else (pts, st.track_id)
    let pts := created.1.map (fun p =>
      if p.1 = 0 then
        (0, { p.2 with
              dRel := dist
              yRel := -m.objLatPos
              vRel := m.objRelSpd
              aRel := none
              yvRel := none
              measured := true })
      else p)
    (⟨pts, created.2, dist⟩, pts.map Prod.snd)
  else
    ({ st with pts := [] }, [])

/- ---------------------------------------------------------------------
   selfdrive/controls/lib/drive_helpers.py: update_v_cruise (lines 29-94)
   --------------------------------------------------------------------- -/

/-- CRUISE_LONG_PRESS from drive_helpers.py. -/
def CRUISE_LONG_PRESS : ℕ := 50

/-- The raw value of car.CarState.ButtonEvent.Type.accelCruise. -/
def accelCruiseRaw : ℕ := 3

/-- The raw value of car.CarState.ButtonEvent.Type.decelCruise. -/
def decelCruiseRaw : ℕ := 4

/-- CRUISE_NEAREST_FUNC: math.ceil for accelCruise and math.floor for
decelCruise; any other key is a KeyError. -/
def CRUISE_NEAREST_FUNC (bt : ℕ) (q : ℚ) : Except String ℚ :=
  if bt = accelCruiseRaw then .ok (⌈q⌉ : ℚ)
  else if bt = decelCruiseRaw then .ok (⌊q⌋ : ℚ)
  else .error ("KeyError: CRUISE_NEAREST_FUNC")

/-- CRUISE_INTERVAL_SIGN: +1 for accelCruise and -1 for decelCruise; any
other key is a KeyError. -/
def CRUISE_INTERVAL_SIGN (bt : ℕ) : Except String ℚ :=
  if bt = accelCruiseRaw then .ok 1
  else if bt = decelCruiseRaw then .ok (-1)
  else .error ("KeyError: CRUISE_INTERVAL_SIGN")

/-- One entry of the buttonEvents list as read by update_v_cruise: the raw
button type and the pressed flag. -/
structure VButtonEvent where
  typeRaw : ℕ
  pressed : Bool
  deriving DecidableEq

/-- Result of the first loop of update_v_cruise over buttonEvents. -/
inductive ReleaseScan
  | endLongPress
  | shortPress (bt : ℕ)
  | fallthrough
  deriving DecidableEq

/-- The first loop of update_v_cruise (lines 68-73): scan buttonEvents for
the first release of a tracked button type; when its timer exceeds
CRUISE_LONG_PRESS the function returns the speed unchanged (end long press),
otherwise that button is the short press; when the loop finishes without a
break the for-else branch runs. -/
def scanReleases (button_timers : List (ℕ × ℕ)) :
    List VButtonEvent → ReleaseScan
  | [] => .fallthrough
  | b :: rest =>
    match button_timers.lookup b.typeRaw with
    | some t =>
      if b.pressed = true then scanReleases button_timers rest
      else if t > CRUISE_LONG_PRESS then .endLongPress
      else .shortPress b.typeRaw
    | none => scanReleases button_timers rest

/-- The for-else loop of update_v_cruise (lines 75-79): the first tracked
button whose timer is truthy and an exact multiple of CRUISE_LONG_PRESS
becomes the long-press button. -/
def scanTimers : List (ℕ × ℕ) → Option ℕ
  | [] => none
  | (k, t) :: rest =>
    if t ≠ 0 ∧ t % CRUISE_LONG_PRESS = 0 then some k else scanTimers rest

/-- update_v_cruise from drive_helpers.py (lines 56-94).

Modelled from the spec: the source body references set_speed_offset, an
externally configured set-speed offset tunable that is not defined anywhere
in this source set (the spec lists its origin as an open question); it is
modelled as the explicit first parameter.  Everything else follows the
source: no-op when not enabled; base delta 1.0 kph metric, 1.6 otherwise;
the release scan may end a long press (speed unchanged) or pick a short
press; otherwise a held timer at a nonzero multiple of 50 picks a long
press; a falsy button type leaves the speed unchanged; a long press from a
value not aligned to the 5x delta snaps via CRUISE_NEAREST_FUNC, otherwise
one signed delta is added; the result is rounded to 0.1 and clipped to
[V_CRUISE_MIN, V_CRUISE_MAX]; finally the signed offset (0 for a short
press, and re-based to set_speed_offset minus the delta when negative) is
added. -/
def update_v_cruise (set_speed_offset : ℚ) (v_cruise_kph : ℚ)
    (buttonEvents : List VButtonEvent) (button_timers : List (ℕ × ℕ))
    (enabled metric : Bool) : Except String ℚ :=
  if enabled = false then .ok v_cruise_kph
  else
    let base_delta : ℚ := if metric = true then 1 else 8/5
    match scanReleases button_timers buttonEvents with
    | .endLongPress => .ok v_cruise_kph
    | scan =>
      let bt_lp : Option ℕ × Bool :=
        match scan with
        | .shortPress bt => (some bt, false)
        | _ =>
          match scanTimers button_timers with
          | some k => (some k, true)
          | none => (none, false)
      match bt_lp with
      | (none, _) => .ok v_cruise_kph
      | (some bt, long_press) =>
        if bt = 0 then .ok v_cruise_kph
        else
          let v_cruise_delta := base_delta * (if long_press = true then 5 else 1)
          let step : Except String ℚ :=
            if long_press = true ∧ pymod v_cruise_kph v_cruise_delta ≠ 0 then
              (CRUISE_NEAREST_FUNC bt (v_cruise_kph / v_cruise_delta)).map
                (fun nf => nf * v_cruise_delta)
            else
              (CRUISE_INTERVAL_SIGN bt).map
                (fun s => v_cruise_kph + v_cruise_delta * s)
          step.bind (fun v1 =>
            let v2 := clip (pyRound1 v1) V_CRUISE_MIN V_CRUISE_MAX
            (if long_press = true then
                (CRUISE_INTERVAL_SIGN bt).map (fun s => set_speed_offset * s)
              else .ok 0).map (fun off0 =>
              let off := if off0 < 0 then set_speed_offset - v_cruise_delta else off0
              v2 + off))

/- ---------------------------------------------------------------------
   selfdrive/controls/lib/drive_helpers.py: get_lag_adjusted_curvature
   (lines 105-136) and the constants it reads
   --------------------------------------------------------------------- -/

/-- CONTROL_N from drive_helpers.py. -/
def CONTROL_N : ℕ := 17

/-- MIN_DIST from drive_helpers.py. -/
def MIN_DIST : ℚ := 1/1000

/-- MIN_SPEED from drive_helpers.py. -/
def MIN_SPEED : ℚ := 1

/-- MAX_LATERAL_JERK from drive_helpers.py. -/
def MAX_LATERAL_JERK : ℚ := 10

/-- DT_MDL from common/realtime.py: the 20 Hz model period. -/
def DT_MDL : ℚ := 1/20

/-- T_IDXS from selfdrive/modeld/constants.py: the 33-sample model time
grid, sample i at 10 * (i/32)^2 seconds. -/
def T_IDXS : List ℚ := (List.range 33).map (fun i => 10 * ((i : ℚ) / 32)^2)

/-- get_lag_adjusted_curvature from drive_helpers.py (lines 105-136).  The
unused CP argument is dropped and the ntune_common_get steerActuatorDelay
read (an external tunable) enters as the first parameter.  The guard
substitutes all four trajectories with zeros when psis or distances does not
have CONTROL_N samples; list indexing is modelled with get?, an IndexError
when out of range. -/
def get_lag_adjusted_curvature (steerActuatorDelay : ℚ) (v_ego : ℚ)
    (psis curvatures curvature_rates distances : List ℚ)
    (average_desired_curvature : Bool) : Except String (ℚ × ℚ) :=
  let subst := psis.length ≠ CONTROL_N ∨ distances.length ≠ CONTROL_N
  let psis := if subst then List.replicate CONTROL_N 0 else psis
  let curvatures := if subst then List.replicate CONTROL_N 0 else curvatures
  let curvature_rates := if subst then List.replicate CONTROL_N 0 else curvature_rates
  let distances := if subst then List.replicate CONTROL_N 0 else distances
  let v_ego := max MIN_SPEED v_ego
  let delay := steerActuatorDelay + 1/5
  match curvatures.get? 0 with
  | none => .error ("IndexError: curvatures")
  | some current_curvature_desired =>
    let psi := interp delay (T_IDXS.take CONTROL_N) psis
    let distance := interp delay (T_IDXS.take CONTROL_N) distances
    let distance := max MIN_DIST distance
    let average_curvature_desired :=
      if average_desired_curvature = true then psi / distance
      else psi / (v_ego * delay)
    let desired_curvature := 2 * average_curvature_desired - current_curvature_desired
    match curvature_rates.get? 0 with
    | none => .error ("IndexError: curvature_rates")
    | some desired_curvature_rate =>
      let max_curvature_rate := MAX_LATERAL_JERK / v_ego^2
      let safe_desired_curvature_rate :=
        clip desired_curvature_rate (-max_curvature_rate) max_curvature_rate
      let safe_desired_curvature :=
        clip (desired_curvature * (21/20))
          (current_curvature_desired - max_curvature_rate * DT_MDL)
          (current_curvature_desired + max_curvature_rate * DT_MDL)
      .ok (safe_desired_curvature, safe_desired_curvature_rate)

/- ---------------------------------------------------------------------
   selfdrive/controls/lib/longitudinal_planner.py: limit_accel_in_turns
   (lines 29-48), over the reals since the source takes a square root
   --------------------------------------------------------------------- -/

section RealEmbedding

open Classical

/-- The lookup table for turns from longitudinal_planner.py: values. -/
noncomputable def A_TOTAL_MAX_V : List ℝ := [17/10, 16/5]

/-- The lookup table for turns from longitudinal_planner.py: breakpoints. -/
noncomputable def A_TOTAL_MAX_BP : List ℝ := [20, 40]

/-- Conversions.DEG_TO_RAD from common/conversions.py. -/
noncomputable def DEG_TO_RAD : ℝ := Real.pi / 180

/-- interp from common/numpy_fast.py over the reals, same algorithm as
interp above; needed because limit_accel_in_turns mixes the interpolated
envelope with a square root. -/
noncomputable def interpR (x : ℝ) (xp fp : List ℝ) : ℝ :=
  let n := xp.length
  let hi := (xp.takeWhile (fun v => decide (x > v))).length
  let low := hi - 1
  if hi = n ∧ x > xp.getD low 0 then fp.getD (n - 1) 0
  else if hi = 0 then fp.getD 0 0
  else
    (x - xp.getD low 0) * (fp.getD hi 0 - fp.getD low 0) /
      (xp.getD hi 0 - xp.getD low 0) + fp.getD low 0

/-- limit_accel_in_turns from longitudinal_planner.py (lines 36-48): the
total envelope interpolates the turn table at v_ego, the lateral estimate is
v_ego^2 * angle * DEG_TO_RAD / (steerRatio * wheelbase) with sr and wb
standing for CP.steerRatio and CP.wheelbase, and the returned pair keeps the
lower bound while capping the upper bound by sqrt(max(total^2 - lat^2, 0)). -/
noncomputable def limit_accel_in_turns (v_ego angle_steers : ℝ)
    (a_target : ℝ × ℝ) (sr wb : ℝ) : ℝ × ℝ :=
  let a_total_max := interpR v_ego A_TOTAL_MAX_BP A_TOTAL_MAX_V
  let a_y := v_ego^2 * angle_steers * DEG_TO_RAD / (sr * wb)
  let a_x_allowed := Real.sqrt (max (a_total_max^2 - a_y^2) 0)
  (a_target.1, min a_target.2 a_x_allowed)

end RealEmbedding

/- ---------------------------------------------------------------------
   selfdrive/car/interfaces.py: FluxModel (lines 73-139)
   --------------------------------------------------------------------- -/

/-- One fully-connected layer of a FluxModel: weight matrix (row i holds the
weights of input i), bias vector, and the activation resolved by name at
load time (sigmoid or identity in the source; kept abstract as a function
since the claims only exercise the input handling). -/
structure FluxLayer where
  W : List (List ℚ)
  b : List ℚ
  activation : ℚ → ℚ

/-- The loaded FluxModel: declared input size, normalization vectors, and
layers. -/
structure FluxModel where
  input_size : ℕ
  input_mean : List ℚ
  input_std : List ℚ
  layers : List FluxLayer

/-- numpy x.dot(W) for a vector and a matrix stored by rows. -/
def vecDotMat (x : List ℚ) (W : List (List ℚ)) : List ℚ :=
  (List.range (W.headD []).length).map
    (fun j => ((x.zip W).map (fun p => p.1 * p.2.getD j 0)).sum)

/-- FluxModel.forward: fold the layers, applying activation(x.dot(W) + b). -/
def FluxModel.forward (m : FluxModel) (x : List ℚ) : List ℚ :=
  m.layers.foldl
    (fun x layer =>
      (((vecDotMat x layer.W).zip layer.b).map (fun p => p.1 + p.2)).map
        layer.activation)
    x

/-- The input-length handling of FluxModel.evaluate (interfaces.py lines
114-121): when the length differs from the declared input size, an input of
length at least 2 is extended with input_size - length zeros (an empty
extension when the input is longer, since the Python list repetition of a
negative count is empty), and a shorter input raises ValueError. -/
def FluxModel.evaluateInput (input_size : ℕ) (input_array : List ℚ) :
    Except String (List ℚ) :=
  let in_len := input_array.length
  if in_len ≠ input_size then
    if 2 ≤ in_len then .ok (input_array ++ List.replicate (input_size - in_len) 0)
    else .error ("ValueError: input array length must be 2 or greater")
  else .ok input_array

/-- FluxModel.evaluate (interfaces.py lines 113-130): the input-length
handling above, then the (x - mean) / std normalization (elementwise over
the zipped vectors; numpy broadcasting requires the matching lengths the
source provides), the forward pass, and the first scalar of the output. -/
def FluxModel.evaluate (m : FluxModel) (input_array : List ℚ) :
    Except String ℚ :=
  (FluxModel.evaluateInput m.input_size input_array).map (fun arr =>
    let arr := (arr.zip (m.input_mean.zip m.input_std)).map
      (fun p => (p.1 - p.2.1) / p.2.2)
    (m.forward arr).headD 0)

/- ---------------------------------------------------------------------
   Concrete inputs used by the witnesses
   --------------------------------------------------------------------- -/

/-- A concrete torque configuration: OLD substitutes to NEW, NEW only in the
base table, B in base and override. -/
def torqueCfgW : TorqueConfig :=
  ⟨[("OLD", "NEW")], [("NEW", [1, 2]), ("B", [3])], [("B", [4])], ["F", "L"]⟩

/-- A CarState with a temporary steering fault while the driver presses. -/
def csPressedFaultW : CommonCsOut :=
  ⟨GearShifter.drive, true, false, false, false, false, false, 10, false,
   true, true, false, false⟩

/-- A CarState with a temporary steering fault, driver not pressing, moving. -/
def csUnpressedFaultW : CommonCsOut :=
  ⟨GearShifter.drive, true, false, false, false, false, false, 10, false,
   false, true, false, false⟩

/-- A CarState with a permanent steering fault only. -/
def csPermFaultW : CommonCsOut :=
  ⟨GearShifter.drive, true, false, false, false, false, false, 10, false,
   false, false, true, false⟩

/-- A radar state holding the slot-0 track at 50 m with id 3, counter 4. -/
def radarStW : RadarState := ⟨[(0, ⟨3, 50, 0, 0, none, none, true⟩)], 4, 50⟩

deriving instance DecidableEq for Except

unseal Rat.sub Rat.mul Rat.inv Rat.add

/- ---------------------------------------------------------------------
   C7: limit_accel_in_turns
   --------------------------------------------------------------------- -/

/-- C7: for every speed, steering angle and acceleration-limit pair, the
pair returned by limit_accel_in_turns is the lower bound unchanged together
with the upper bound capped by sqrt(max(total^2 - lateral^2, 0)) built from
the interpolated turn envelope; the returned upper bound never exceeds the
input upper bound; and the headroom term is non-negative even when the
lateral square exceeds the envelope square. -/
theorem c7_limit_accel_in_turns (v_ego angle_steers lo hi sr wb : ℝ) :
    limit_accel_in_turns v_ego angle_steers (lo, hi) sr wb =
      (lo, min hi (Real.sqrt (max ((interpR v_ego A_TOTAL_MAX_BP A_TOTAL_MAX_V)^2 -
          (v_ego^2 * angle_steers * DEG_TO_RAD / (sr * wb))^2) 0))) ∧
    (limit_accel_in_turns v_ego angle_steers (lo, hi) sr wb).2 ≤ hi ∧
    0 ≤ Real.sqrt (max ((interpR v_ego A_TOTAL_MAX_BP A_TOTAL_MAX_V)^2 -
          (v_ego^2 * angle_steers * DEG_TO_RAD / (sr * wb))^2) 0) :=
  ⟨rfl, min_le_left _ _, Real.sqrt_nonneg _⟩

/- ---------------------------------------------------------------------
   C2: get_torque_params layering
   --------------------------------------------------------------------- -/

/-- C2 counterexample: a candidate present in both the base and the override
table raises the configuration-conflict error; the override row does not
win as the claim states. -/
theorem c2_torque_cex :
    get_torque_params ⟨[], [("A", [1])], [("A", [2])], ["X"]⟩ "A" =
      .error ("RuntimeError: candidate is defined twice in torque config") ∧
    get_torque_params ⟨[], [("A", [1])], [("A", [2])], ["X"]⟩ "A" ≠
      .ok ([("X", 2)]) :=
  ⟨rfl, by decide⟩

/-- C2 (amended): after resolving the candidate through the substitution
table, a name present only in the base table returns the base row keyed by
the legend; a name present in more than one of the three tables (including
base plus override together, where the original claim expected the override
row to win) raises the configuration-conflict error; a name present in none
raises the not-found error; and the override row is returned when the name
is present in the override table alone. -/
theorem c2_torque_params_layering (cfg : TorqueConfig) (candidate : String) :
    (cfg.sub.lookup (resolveSub cfg candidate) = none →
     cfg.override.lookup (resolveSub cfg candidate) = none →
     ∀ row, cfg.params.lookup (resolveSub cfg candidate) = some row →
       get_torque_params cfg candidate = .ok (cfg.legend.zip row)) ∧
    (cfg.sub.lookup (resolveSub cfg candidate) = none →
     cfg.params.lookup (resolveSub cfg candidate) = none →
     ∀ row, cfg.override.lookup (resolveSub cfg candidate) = some row →
       get_torque_params cfg candidate = .ok (cfg.legend.zip row)) ∧
    (1 < (if (cfg.sub.lookup (resolveSub cfg candidate)).isSome then 1 else 0) +
         (if (cfg.params.lookup (resolveSub cfg candidate)).isSome then 1 else 0) +
         (if (cfg.override.lookup (resolveSub cfg candidate)).isSome then 1 else 0) →
       get_torque_params cfg candidate =
         .error ("RuntimeError: candidate is defined twice in torque config")) ∧
    (cfg.sub.lookup (resolveSub cfg candidate) = none →
     cfg.params.lookup (resolveSub cfg candidate) = none →
     cfg.override.lookup (resolveSub cfg candidate) = none →
       get_torque_params cfg candidate =
         .error ("NotImplementedError: did not find torque params for candidate")) := by
  refine ⟨?_, ?_, ?_, ?_⟩
  · intro h1 h2 row h3
    simp [get_torque_params, h1, h2, h3]
  · intro h1 h2 row h3
    simp [get_torque_params, h1, h2, h3]
  · intro h
    simp only [get_torque_params]
    rw [if_pos h]
  · intro h1 h2 h3
    simp [get_torque_params, h1, h2, h3]

/-- C2 witness: on the concrete configuration, the candidate OLD resolves to
NEW, present only in the base table, and the base row comes back keyed by
the legend. -/
theorem c2_torque_witness :
    torqueCfgW.sub.lookup (resolveSub torqueCfgW "OLD") = none ∧
    torqueCfgW.override.lookup (resolveSub torqueCfgW "OLD") = none ∧
    torqueCfgW.params.lookup (resolveSub torqueCfgW "OLD") = some [1, 2] ∧
    get_torque_params torqueCfgW "OLD" = .ok ([("F", 1), ("L", 2)]) :=
  ⟨by decide, by decide, by decide,
   (c2_torque_params_layering torqueCfgW "OLD").1 (by decide) (by decide) [1, 2] (by decide)⟩

/- ---------------------------------------------------------------------
   C8 and C9: FluxModel.evaluate input handling
   --------------------------------------------------------------------- -/

/-- C8 counterexample: a 1-long input evaluated against a network declaring
input size 1 does not raise the invalid-input error, contradicting the
claim that every input of length 0 or 1 fails. -/
theorem c8_flux_cex :
    ([(5 : ℚ)].length = 1) ∧
    (FluxModel.mk 1 [0] [1] []).evaluate [5] = .ok 5 :=
  ⟨rfl, by decide⟩

/-- C8 (amended): for every input of length at least 2 and less than the
declared input size, evaluate zero-pads the input to exactly the declared
size before the normalization and forward pass; and every input of length 0
or 1 whose length also differs from the declared input size fails with the
invalid-input error (a 0- or 1-long input matching a degenerate declared
size of 0 or 1 passes the length check unchanged). -/
theorem c8_flux_evaluate_padding (m : FluxModel) (input : List ℚ) :
    (2 ≤ input.length → input.length < m.input_size →
      FluxModel.evaluateInput m.input_size input =
        .ok (input ++ List.replicate (m.input_size - input.length) 0) ∧
      (input ++ List.replicate (m.input_size - input.length) 0).length = m.input_size ∧
      m.evaluate input = m.evaluate (input ++ List.replicate (m.input_size - input.length) 0)) ∧
    (input.length < 2 → input.length ≠ m.input_size →
      FluxModel.evaluateInput m.input_size input =
        .error ("ValueError: input array length must be 2 or greater") ∧
      m.evaluate input =
        .error ("ValueError: input array length must be 2 or greater")) := by
  constructor
  · intro h2 hlt
    have hne : input.length ≠ m.input_size := Nat.ne_of_lt hlt
    have hlen : (input ++ List.replicate (m.input_size - input.length) 0).length
        = m.input_size := by
      simp [List.length_append, List.length_replicate]
      omega
    have e1 : FluxModel.evaluateInput m.input_size input =
        .ok (input ++ List.replicate (m.input_size - input.length) 0) := by
      simp [FluxModel.evaluateInput, hne, h2]
    have e2 : FluxModel.evaluateInput m.input_size
        (input ++ List.replicate (m.input_size - input.length) 0) =
        .ok (input ++ List.replicate (m.input_size - input.length) 0) := by
      simp [FluxModel.evaluateInput, hlen]
    exact ⟨e1, hlen, by simp only [FluxModel.evaluate, e1, e2]⟩
  · intro hlt hne
    have h2 : ¬ (2 ≤ input.length) := by omega
    have e1 : FluxModel.evaluateInput m.input_size input =
        .error ("ValueError: input array length must be 2 or greater") := by
      simp [FluxModel.evaluateInput, hne, h2]
    exact ⟨e1, by simp only [FluxModel.evaluate, e1, Except.map]⟩

/-- C8 witness: a 3-long input against a network declaring input size 5 is
zero-padded to length 5 before normalization and the forward pass, and a
1-long input against the same network fails with the invalid-input error. -/
theorem c8_flux_witness :
    (2 ≤ ([10, 0, 1/5] : List ℚ).length) ∧ (([10, 0, 1/5] : List ℚ).length < 5) ∧
    FluxModel.evaluateInput 5 [10, 0, 1/5] = .ok ([10, 0, 1/5, 0, 0]) ∧
    (([(1 : ℚ)] : List ℚ).length < 2) ∧ (([(1 : ℚ)] : List ℚ).length ≠ 5) ∧
    FluxModel.evaluateInput 5 [1] =
      .error ("ValueError: input array length must be 2 or greater") :=
  ⟨by decide, by decide,
   by
    have h := ((c8_flux_evaluate_padding (FluxModel.mk 5 [] [] []) [10, 0, 1/5]).1
      (by decide) (by decide)).1
    simpa using h,
   by decide, by decide,
   by
    have h := ((c8_flux_evaluate_padding (FluxModel.mk 5 [] [] []) [1]).2
      (by decide) (by decide)).1
    simpa using h⟩

/-- C9 counterexample: the empty input evaluated against a declared input
size of 0 passes the length check and raises no error, contradicting the
claim that the invalid-input error is raised exactly when the input has
fewer than 2 elements. -/
theorem c9_flux_cex :
    (([] : List ℚ).length < 2) ∧ FluxModel.evaluateInput 0 [] = .ok [] :=
  ⟨by decide, rfl⟩

/-- C9 (amended): the input-length handling raises the invalid-input error
exactly when the input has fewer than 2 elements and its length differs
from the declared input size; every input of length 2 or more passes
without error, and an input at least as long as the declared size — in
particular an over-long one — is passed onward unmodified, the padding
step appending zero elements. -/
theorem c9_flux_length_check (input_size : ℕ) (input : List ℚ) :
    ((∃ e, FluxModel.evaluateInput input_size input = .error e) ↔
      (input.length < 2 ∧ input.length ≠ input_size)) ∧
    (2 ≤ input.length → ∃ out, FluxModel.evaluateInput input_size input = .ok out) ∧
    (2 ≤ input.length → input_size ≤ input.length →
      FluxModel.evaluateInput input_size input = .ok input) := by
  refine ⟨⟨?_, ?_⟩, ?_, ?_⟩
  · rintro ⟨e, he⟩
    by_cases h1 : input.length = input_size
    · simp [FluxModel.evaluateInput, h1] at he
    · by_cases h2 : 2 ≤ input.length
      · simp [FluxModel.evaluateInput, h1, h2] at he
      · exact ⟨by omega, h1⟩
  · rintro ⟨hlt, hne⟩
    have h2 : ¬ (2 ≤ input.length) := by omega
    exact ⟨"ValueError: input array length must be 2 or greater",
      by simp [FluxModel.evaluateInput, hne, h2]⟩
  · intro h2
    by_cases h1 : input.length = input_size
    · exact ⟨input, by simp [FluxModel.evaluateInput, h1]⟩
    · exact ⟨input ++ List.replicate (input_size - input.length) 0,
        by simp [FluxModel.evaluateInput, h1, h2]⟩
  · intro h2 hle
    by_cases h1 : input.length = input_size
    · simp [FluxModel.evaluateInput, h1]
    · have hz : input_size - input.length = 0 := by omega
      simp [FluxModel.evaluateInput, h1, h2, hz]

/-- C9 witness: a 7-long input against a declared input size of 5 passes the
length check and is passed onward unmodified. -/
theorem c9_flux_witness :
    (2 ≤ ([1, 2, 3, 4, 5, 6, 7] : List ℚ).length) ∧
    ((5 : ℕ) ≤ ([1, 2, 3, 4, 5, 6, 7] : List ℚ).length) ∧
    FluxModel.evaluateInput 5 [1, 2, 3, 4, 5, 6, 7] = .ok ([1, 2, 3, 4, 5, 6, 7]) :=
  ⟨by decide, by decide,
   (c9_flux_length_check 5 [1, 2, 3, 4, 5, 6, 7]).2.2 (by decide) (by decide)⟩

/- ---------------------------------------------------------------------
   C3: Hyundai bus topology
   --------------------------------------------------------------------- -/

/-- C3: the SCC bus resolves through the four fingerprint cases in order;
whenever it resolves to -1, radarOffCan is set, pcmCruise is cleared, and
the community safety profile is selected; and the community profile is
selected exactly when radar is off-CAN, the MDPS bus is 1, openpilot
longitudinal control is enabled, the SCC bus is 1, or the persisted
mad-mode flag is set. -/
theorem c3_hyundai_bus_topology (fp : Fingerprint) (opLong madMode : Bool) :
    (1056 ∈ fp.bus0 → sccBus fp = 0) ∧
    (1056 ∉ fp.bus0 → 1056 ∈ fp.bus1 → 1296 ∉ fp.bus1 → sccBus fp = 1) ∧
    (1056 ∉ fp.bus0 → ¬ (1056 ∈ fp.bus1 ∧ 1296 ∉ fp.bus1) → 1056 ∈ fp.bus2 →
      sccBus fp = 2) ∧
    (1056 ∉ fp.bus0 → ¬ (1056 ∈ fp.bus1 ∧ 1296 ∉ fp.bus1) → 1056 ∉ fp.bus2 →
      sccBus fp = -1) ∧
    (sccBus fp = -1 →
      radarOffCan fp = true ∧ pcmCruise fp = false ∧
      hyundaiSafetyModel fp opLong madMode = SafetyModel.hyundaiCommunity) ∧
    (hyundaiSafetyModel fp opLong madMode = SafetyModel.hyundaiCommunity ↔
      (radarOffCan fp = true ∨ mdpsBus fp = 1 ∨ opLong = true ∨ sccBus fp = 1 ∨
       madMode = true)) := by
  refine ⟨?_, ?_, ?_, ?_, ?_, ?_⟩
  · intro h
    simp [sccBus, h]
  · intro h0 h1 h2
    simp [sccBus, h0, h1, h2]
  · intro h0 h1 h2
    simp only [sccBus]
    rw [if_neg h0, if_neg h1, if_pos h2]
  · intro h0 h1 h2
    simp only [sccBus]
    rw [if_neg h0, if_neg h1, if_neg h2]
  · intro h
    have hr : radarOffCan fp = true := by
      simp [radarOffCan, h]
    refine ⟨hr, by simp [pcmCruise, hr], ?_⟩
    simp only [hyundaiSafetyModel]
    rw [if_pos (Or.inl hr)]
  · simp only [hyundaiSafetyModel]
    split
    · simp_all
    · simp_all

/-- C3 witness: the empty fingerprint resolves the SCC bus to -1, which sets
radarOffCan, clears pcmCruise, and selects the community safety profile even
with both persisted flags off. -/
theorem c3_hyundai_witness :
    ((1056 : ℕ) ∉ (Fingerprint.mk [] [] []).bus0) ∧
    (¬ ((1056 : ℕ) ∈ (Fingerprint.mk [] [] []).bus1 ∧
        (1296 : ℕ) ∉ (Fingerprint.mk [] [] []).bus1)) ∧
    ((1056 : ℕ) ∉ (Fingerprint.mk [] [] []).bus2) ∧
    sccBus ⟨[], [], []⟩ = -1 ∧
    radarOffCan ⟨[], [], []⟩ = true ∧
    pcmCruise ⟨[], [], []⟩ = false ∧
    hyundaiSafetyModel ⟨[], [], []⟩ false false = SafetyModel.hyundaiCommunity := by
  have h4 := (c3_hyundai_bus_topology ⟨[], [], []⟩ false false).2.2.2.1
    (by decide) (by decide) (by decide)
  have h5 := (c3_hyundai_bus_topology ⟨[], [], []⟩ false false).2.2.2.2.1 h4
  exact ⟨by decide, by decide, by decide, h4, h5.1, h5.2.1, h5.2.2⟩

/- ---------------------------------------------------------------------
   C10: blinker stalk invariant
   --------------------------------------------------------------------- -/

/-- Helper for C10: one stalk update keeps at least one counter at zero. -/
theorem blinker_step_zero (st : BlinkerState) (bt : ℤ) (l r : Bool)
    (h : st.left_blinker_cnt = 0 ∨ st.right_blinker_cnt = 0) :
    (update_blinker_from_stalk st bt l r).1.left_blinker_cnt = 0 ∨
    (update_blinker_from_stalk st bt l r).1.right_blinker_cnt = 0 := by
  cases l <;> cases r
  all_goals simp [update_blinker_from_stalk]
  all_goals omega

/-- Helper for C10: every state reached from the fresh state keeps at least
one counter at zero. -/
theorem runBlinker_zero :
    ∀ (inputs : List (ℤ × Bool × Bool)) (st : BlinkerState),
      (st.left_blinker_cnt = 0 ∨ st.right_blinker_cnt = 0) →
      ((inputs.foldl (fun st i => (update_blinker_from_stalk st i.1 i.2.1 i.2.2).1) st).left_blinker_cnt = 0 ∨
       (inputs.foldl (fun st i => (update_blinker_from_stalk st i.1 i.2.1 i.2.2).1) st).right_blinker_cnt = 0)
  | [], _, h => h
  | i :: rest, st, h =>
    runBlinker_zero rest _ (blinker_step_zero st i.1 i.2.1 i.2.2 h)

/-- Helper for C10: when at least one counter is zero before the call, both
outputs can be true only if both stalks are held. -/
theorem blinker_step_both (st : BlinkerState) (bt : ℤ) (l r : Bool)
    (h : st.left_blinker_cnt = 0 ∨ st.right_blinker_cnt = 0)
    (hl : (update_blinker_from_stalk st bt l r).2.1 = true)
    (hr : (update_blinker_from_stalk st bt l r).2.2 = true) :
    l = true ∧ r = true := by
  cases l <;> cases r
  all_goals simp_all [update_blinker_from_stalk]
  all_goals omega

/-- C10: starting from a freshly constructed CarStateBase, after every
sequence of update_blinker_from_stalk calls at least one of the two blinker
counters is zero, one further call also keeps at least one counter at zero,
and both outputs of a call can be true only in a cycle where both stalk
inputs are physically held. -/
theorem c10_blinker_stalk_invariant (inputs : List (ℤ × Bool × Bool)) :
    ((runBlinkerStalk inputs).left_blinker_cnt = 0 ∨
     (runBlinkerStalk inputs).right_blinker_cnt = 0) ∧
    (∀ (bt : ℤ) (l r : Bool),
      (update_blinker_from_stalk (runBlinkerStalk inputs) bt l r).1.left_blinker_cnt = 0 ∨
      (update_blinker_from_stalk (runBlinkerStalk inputs) bt l r).1.right_blinker_cnt = 0) ∧
    (∀ (bt : ℤ) (l r : Bool),
      (update_blinker_from_stalk (runBlinkerStalk inputs) bt l r).2.1 = true →
      (update_blinker_from_stalk (runBlinkerStalk inputs) bt l r).2.2 = true →
      l = true ∧ r = true) := by
  have hz : (runBlinkerStalk inputs).left_blinker_cnt = 0 ∨
      (runBlinkerStalk inputs).right_blinker_cnt = 0 :=
    runBlinker_zero inputs initBlinkerState (Or.inl rfl)
  exact ⟨hz,
    fun bt l r => blinker_step_zero _ bt l r hz,
    fun bt l r hl hr => blinker_step_both _ bt l r hz hl hr⟩

/-- C10 witness: from the fresh state, a call with both stalks held yields
both outputs true, and the theorem instance confirms both stalks were held. -/
theorem c10_blinker_witness :
    ((update_blinker_from_stalk (runBlinkerStalk []) 5 true true).2.1 = true) ∧
    ((update_blinker_from_stalk (runBlinkerStalk []) 5 true true).2.2 = true) ∧
    (true = true ∧ true = true) :=
  ⟨by decide, by decide,
   (c10_blinker_stalk_invariant []).2.2 5 true true (by decide) (by decide)⟩

/- ---------------------------------------------------------------------
   C4: Hyundai single-object radar update
   --------------------------------------------------------------------- -/

/-- Helper for C4: a successful association-list lookup is a member. -/
theorem lookup_mem_radar :
    ∀ {l : List (ℕ × RadarPoint)} {k : ℕ} {p : RadarPoint},
      l.lookup k = some p → (k, p) ∈ l := by
  intro l
  induction l with
  | nil => intro k p h; simp [List.lookup] at h
  | cons a rest ih =>
    intro k p h
    rw [List.lookup] at h
    split at h
    · rename_i hk
      have hk1 : k = a.1 := by simpa using hk
      have hp : a.2 = p := Option.some.inj h
      subst hk1
      rw [← hp]
      exact List.mem_cons_self a rest
    · exact List.mem_cons_of_mem a (ih h)

/-- C4: in the single-object radar mode, for every valid SCC11 reading whose
distance jumps from the previous cycle distance by more than
clip(dist/20, 1, 5), all tracks are cleared and the recreated slot-0 track
carries the freshly allocated counter value as its id (strictly larger than
the id of any track held before, in particular the replaced slot-0 track),
with the counter advancing by one; for a jump within tolerance the existing
slot-0 track is updated in place keeping its id and the counter does not
move; and an invalid reading clears all tracks. -/
theorem c4_radar_single_object (st : RadarState) (m : Scc11)
    (hinv : ∀ q ∈ st.pts, q.2.trackId < st.track_id) :
    (m.objStatus = true →
      (|m.objDist - st.prev_dist| > clip (m.objDist / 20) 1 5 →
        (RadarInterface.update st m).1.pts =
          [(0, ⟨st.track_id, m.objDist, -m.objLatPos, m.objRelSpd, none, none, true⟩)] ∧
        (RadarInterface.update st m).1.track_id = st.track_id + 1 ∧
        (∀ p, st.pts.lookup 0 = some p → p.trackId < st.track_id)) ∧
      (¬ (|m.objDist - st.prev_dist| > clip (m.objDist / 20) 1 5) →
        ∀ p, st.pts = [(0, p)] →
          (RadarInterface.update st m).1.pts =
            [(0, ⟨p.trackId, m.objDist, -m.objLatPos, m.objRelSpd, none, none, true⟩)] ∧
          (RadarInterface.update st m).1.track_id = st.track_id)) ∧
    (m.objStatus = false →
      (RadarInterface.update st m).1.pts = [] ∧
      (RadarInterface.update st m).2 = []) := by
  constructor
  · intro hv
    constructor
    · intro hjump
      refine ⟨?_, ?_, ?_⟩
      · simp [RadarInterface.update, RadarPoint.new, hv, hjump, List.lookup]
      · simp [RadarInterface.update, RadarPoint.new, hv, hjump, List.lookup]
      · intro p hp
        exact hinv (0, p) (lookup_mem_radar hp)
    · intro hjump p hpts
      constructor
      · simp [RadarInterface.update, hv, hjump, hpts, List.lookup]
      · simp [RadarInterface.update, hv, hjump, hpts, List.lookup]
  · intro hv
    constructor
    · simp [RadarInterface.update, hv]
    · simp [RadarInterface.update, hv]

/-- C4 witness: from a slot-0 track at 50 m with id 3 and counter 4, a valid
reading of 55 m (jump 5 beyond the 2.75 tolerance) clears tracks and
recreates slot 0 with the fresh id 4 and counter 5, while a valid reading
of 51 m (jump 1 within tolerance) updates the track in place keeping id 3,
and an invalid reading clears all tracks. -/
theorem c4_radar_witness :
    (∀ q ∈ radarStW.pts, q.2.trackId < radarStW.track_id) ∧
    ((Scc11.mk true 55 2 1).objStatus = true) ∧
    (|(Scc11.mk true 55 2 1).objDist - radarStW.prev_dist| >
      clip ((Scc11.mk true 55 2 1).objDist / 20) 1 5) ∧
    ((RadarInterface.update radarStW ⟨true, 55, 2, 1⟩).1.pts =
      [(0, ⟨4, 55, -2, 1, none, none, true⟩)] ∧
     (RadarInterface.update radarStW ⟨true, 55, 2, 1⟩).1.track_id = 5) ∧
    (¬ (|(Scc11.mk true 51 2 1).objDist - radarStW.prev_dist| >
      clip ((Scc11.mk true 51 2 1).objDist / 20) 1 5)) ∧
    ((RadarInterface.update radarStW ⟨true, 51, 2, 1⟩).1.pts =
      [(0, ⟨3, 51, -2, 1, none, none, true⟩)] ∧
     (RadarInterface.update radarStW ⟨true, 51, 2, 1⟩).1.track_id = 4) ∧
    ((RadarInterface.update radarStW ⟨false, 0, 0, 0⟩).1.pts = []) := by
  have h55 := ((c4_radar_single_object radarStW ⟨true, 55, 2, 1⟩ (by decide)).1
    (by decide)).1 (by decide)
  have h51 := ((c4_radar_single_object radarStW ⟨true, 51, 2, 1⟩ (by decide)).1
    (by decide)).2 (by decide) ⟨3, 50, 0, 0, none, none, true⟩ (by decide)
  have hinvd := (c4_radar_single_object radarStW ⟨false, 0, 0, 0⟩ (by decide)).2
    (by decide)
  exact ⟨by decide, by decide, by decide, ⟨h55.1, h55.2.1⟩, by decide,
    ⟨h51.1, h51.2⟩, hinvd.1⟩

/- ---------------------------------------------------------------------
   C1: create_common_events steering faults
   --------------------------------------------------------------------- -/

/-- C1 counterexample: a temporary steering fault reported while the driver
presses, with no no-steer warning carried over but with no fault in the
previous cycle, adds no silent temporary-unavailable event at all — the
cycle only latches the no-steer warning. -/
theorem c1_steer_fault_cex :
    EventName.steerTempUnavailableSilent ∉
      (create_common_events ⟨0, false, false⟩ false false csPressedFaultW true).1 ∧
    (create_common_events ⟨0, false, false⟩ false false csPressedFaultW true).2.no_steer_warning
      = true := by
  constructor
  · decide
  · decide

/-- Helper for C1: with a temporary fault, the driver pressing, no carried
no-steer warning, and the fault already present in the previous cycle, the
steering block adds the silent event. -/
theorem steer_block_silent (st : SteerWarnState) (standstill : Bool)
    (hnsw : st.no_steer_warning = false) :
    (steer_fault_block st true true true standstill).1 =
      [EventName.steerTempUnavailableSilent] := by
  have hf : (0 : ℤ) < ⌊(3/2 : ℚ) / DT_CTRL⌋ := by decide
  simp [steer_fault_block, hnsw, hf]

/-- Helper for C1: with a temporary fault, the driver not pressing for at
least int(1.5/DT_CTRL) cycles including this one, no standstill and no
latched silent warning, the steering block adds the loud event. -/
theorem steer_block_loud (st : SteerWarnState) (prevFault : Bool)
    (hcnt : ¬ (st.steering_unpressed + 1 < 150))
    (hssw : st.silent_steer_warning = false) :
    (steer_fault_block st prevFault false true false).1 =
      [EventName.steerTempUnavailable] := by
  have hf : ⌊(3/2 : ℚ) / DT_CTRL⌋ = (150 : ℤ) := by decide
  simp [steer_fault_block, hssw, hf, hcnt]

/-- C1 (amended): in every cycle where the temporary steering fault flag is
set: if the driver is actively pressing, no unresolved no-steer warning
carries over, and the temporary fault was already present in the previous
cycle, the silent temporary-unavailable event is added (on a fresh fault
while pressing, nothing is added and the no-steer warning latches instead);
if the driver is not pressing, at least 1.5 seconds worth of control cycles
have elapsed since the last press, the vehicle is not at standstill and no
silent warning is latched, the loud temporary-unavailable event is added;
and whenever the permanent fault flag is set the steerUnavailable event is
added. -/
theorem c1_steer_fault_events (st : SteerWarnState)
    (prevFault prevCruise : Bool) (cs : CommonCsOut) (pcm_enable : Bool) :
    (cs.steerFaultTemporary = true → cs.steeringPressed = true →
     st.no_steer_warning = false → prevFault = true →
      EventName.steerTempUnavailableSilent ∈
        (create_common_events st prevFault prevCruise cs pcm_enable).1) ∧
    (cs.steerFaultTemporary = true → cs.steeringPressed = false →
     ¬ (st.steering_unpressed + 1 < 150) → cs.standstill = false →
     st.silent_steer_warning = false →
      EventName.steerTempUnavailable ∈
        (create_common_events st prevFault prevCruise cs pcm_enable).1) ∧
    (cs.steerFaultPermanent = true →
      EventName.steerUnavailable ∈
        (create_common_events st prevFault prevCruise cs pcm_enable).1) := by
  refine ⟨?_, ?_, ?_⟩
  · intro hft hsp hnsw hpf
    subst hpf
    have hb := steer_block_silent st cs.standstill hnsw
    simp [create_common_events, hsp, hft, hb, List.mem_append]
  · intro hft hsp hcnt hss hssw
    have hb := steer_block_loud st prevFault hcnt hssw
    simp [create_common_events, hsp, hft, hss, hb, List.mem_append]
  · intro hfp
    simp [create_common_events, hfp, List.mem_append]

/-- C1 witness: with the fault already present in the previous cycle, a
pressed temporary fault yields the silent event; with 200 unpressed cycles
behind it, an unpressed temporary fault while moving yields the loud event;
and a permanent fault yields steerUnavailable. -/
theorem c1_steer_fault_witness :
    (csPressedFaultW.steerFaultTemporary = true ∧
     csPressedFaultW.steeringPressed = true ∧
     (⟨0, false, false⟩ : SteerWarnState).no_steer_warning = false ∧
     EventName.steerTempUnavailableSilent ∈
       (create_common_events ⟨0, false, false⟩ true false csPressedFaultW true).1) ∧
    (csUnpressedFaultW.steerFaultTemporary = true ∧
     csUnpressedFaultW.steeringPressed = false ∧
     ¬ ((⟨200, false, false⟩ : SteerWarnState).steering_unpressed + 1 < 150) ∧
     csUnpressedFaultW.standstill = false ∧
     EventName.steerTempUnavailable ∈
       (create_common_events ⟨200, false, false⟩ false false csUnpressedFaultW true).1) ∧
    (csPermFaultW.steerFaultPermanent = true ∧
     EventName.steerUnavailable ∈
       (create_common_events ⟨0, false, false⟩ false false csPermFaultW true).1) :=
  ⟨⟨by decide, by decide, by decide,
    (c1_steer_fault_events ⟨0, false, false⟩ true false csPressedFaultW true).1
      (by decide) (by decide) (by decide) (by decide)⟩,
   ⟨by decide, by decide, by decide, by decide,
    (c1_steer_fault_events ⟨200, false, false⟩ false false csUnpressedFaultW true).2.1
      (by decide) (by decide) (by decide) (by decide) (by decide)⟩,
   ⟨by decide,
    (c1_steer_fault_events ⟨0, false, false⟩ false false csPermFaultW true).2.2
      (by decide)⟩⟩

/- ---------------------------------------------------------------------
   C5: update_v_cruise long press
   --------------------------------------------------------------------- -/

/-- Helper for C5: when no tracked button release appears among the button
events, the release scan reaches the for-else branch. -/
theorem scanReleases_of_no_release (timers : List (ℕ × ℕ)) :
    ∀ (evts : List VButtonEvent),
      (∀ b ∈ evts, timers.lookup b.typeRaw = none ∨ b.pressed = true) →
      scanReleases timers evts = .fallthrough := by
  intro evts
  induction evts with
  | nil => intro _; rfl
  | cons b rest ih =>
    intro h
    have hb := h b (List.mem_cons_self b rest)
    have hrest := ih (fun x hx => h x (List.mem_cons_of_mem b hx))
    cases hl : timers.lookup b.typeRaw with
    | none => simp [scanReleases, hl, hrest]
    | some t =>
      rcases hb with hn | hp
      · simp [hn] at hl
      · simp [scanReleases, hl, hp, hrest]

/-- C5 counterexample: with an accelCruise release whose hold timer is 60
(so no release qualifies as a short press) and the decelCruise button still
held at exactly 50 cycles, the call returns the speed unchanged — it ends
the long press instead of applying the decel long-press step down to the
floor multiple. -/
theorem c5_long_press_cex :
    update_v_cruise 0 (713/10) [⟨accelCruiseRaw, false⟩]
      [(accelCruiseRaw, 60), (decelCruiseRaw, 50)] true true = .ok (713/10) ∧
    (713/10 : ℚ) ≠
      clip (pyRound1 ((⌊(713/10 : ℚ) / 5⌋ : ℚ) * 5)) V_CRUISE_MIN V_CRUISE_MAX :=
  ⟨by decide, by decide⟩

/-- C5 (amended): for every enabled metric call with set-speed offset 0 in
which no tracked button release is present at all (the original claim only
excluded releases qualifying as short presses, but any tracked release
either ends a long press, returning the speed unchanged, or is a short
press) and the first still-held tracked button whose hold timer is a
nonzero exact multiple of 50 cycles is accelCruise or decelCruise, a
long-press step of 5 times the 1.0 kph metric base is applied: when the
current set speed is not a multiple of 5.0 kph, the result snaps to the
ceiling multiple for accelCruise and the floor multiple for decelCruise,
rounded to 0.1 kph and clamped to [8, 180] kph. -/
theorem c5_long_press_step (v : ℚ) (evts : List VButtonEvent)
    (timers : List (ℕ × ℕ)) (bt : ℕ)
    (hrel : ∀ b ∈ evts, timers.lookup b.typeRaw = none ∨ b.pressed = true)
    (hheld : scanTimers timers = some bt)
    (hbt : bt = accelCruiseRaw ∨ bt = decelCruiseRaw)
    (hmod : pymod v 5 ≠ 0) :
    update_v_cruise 0 v evts timers true true =
      .ok (clip (pyRound1
        ((if bt = accelCruiseRaw then (⌈v / 5⌉ : ℚ) else (⌊v / 5⌋ : ℚ)) * 5))
        V_CRUISE_MIN V_CRUISE_MAX) := by
  have hscan := scanReleases_of_no_release timers evts hrel
  rcases hbt with h | h <;> subst h <;>
    simp [update_v_cruise, hscan, hheld, hmod, CRUISE_NEAREST_FUNC,
      CRUISE_INTERVAL_SIGN, accelCruiseRaw, decelCruiseRaw, Except.map,
      Except.bind]

/-- C5 witness: starting at 71.3 kph with an empty event list, the held
accelCruise button at hold time exactly 50 and offset 0 yields 75.0 kph. -/
theorem c5_long_press_witness :
    (∀ b ∈ ([] : List VButtonEvent),
      ([(accelCruiseRaw, 50)] : List (ℕ × ℕ)).lookup b.typeRaw = none ∨
      b.pressed = true) ∧
    scanTimers [(accelCruiseRaw, 50)] = some accelCruiseRaw ∧
    (accelCruiseRaw = accelCruiseRaw ∨ accelCruiseRaw = decelCruiseRaw) ∧
    pymod (713/10) 5 ≠ 0 ∧
    update_v_cruise 0 (713/10) [] [(accelCruiseRaw, 50)] true true = .ok 75 := by
  have h := c5_long_press_step (713/10) [] [(accelCruiseRaw, 50)] accelCruiseRaw
    (by simp) (by decide) (Or.inl rfl) (by decide)
  refine ⟨by simp, by decide, Or.inl rfl, by decide, ?_⟩
  rw [h]
  decide

/- ---------------------------------------------------------------------
   C6: get_lag_adjusted_curvature malformed-input fallback
   --------------------------------------------------------------------- -/

/-- C6 counterexample: with well-formed 17-sample heading and distance
trajectories but empty curvature and curvature-rate trajectories, the guard
does not trigger and the call fails on indexing the empty curvature list —
a malformed curvature input alone is not substituted. -/
theorem c6_malformed_cex :
    get_lag_adjusted_curvature 0 0 (List.replicate 17 0) [] []
      (List.replicate 17 0) true = .error ("IndexError: curvatures") := by
  decide

/-- C6 (amended): the malformed-input guard inspects only the headings and
distances trajectories: whenever either of those does not have exactly 17
samples, all four trajectories are replaced by all-zero 17-sample
trajectories before any computation, the call computes exactly the
all-zero-input result, and it never fails. -/
theorem c6_malformed_fallback (delay v_ego : ℚ)
    (psis curvatures curvature_rates distances : List ℚ) (avg : Bool)
    (h : psis.length ≠ CONTROL_N ∨ distances.length ≠ CONTROL_N) :
    get_lag_adjusted_curvature delay v_ego psis curvatures curvature_rates
        distances avg =
      get_lag_adjusted_curvature delay v_ego (List.replicate CONTROL_N 0)
        (List.replicate CONTROL_N 0) (List.replicate CONTROL_N 0)
        (List.replicate CONTROL_N 0) avg ∧
    ∃ r, get_lag_adjusted_curvature delay v_ego psis curvatures
        curvature_rates distances avg = Except.ok r := by
  have h2 : ¬ ((List.replicate CONTROL_N (0:ℚ)).length ≠ CONTROL_N ∨
      (List.replicate CONTROL_N (0:ℚ)).length ≠ CONTROL_N) := by simp
  constructor
  · simp only [get_lag_adjusted_curvature]
    rw [if_pos h, if_pos h, if_pos h, if_pos h]
    simp only [ite_self]
  · simp only [get_lag_adjusted_curvature]
    rw [if_pos h, if_pos h, if_pos h, if_pos h]
    rw [show (List.replicate CONTROL_N (0:ℚ)).get? 0 = some 0 from by decide]
    exact ⟨_, rfl⟩

/-- C6 witness: the fully empty trajectories trigger the guard; the call
equals the all-zero call and returns a curvature pair instead of failing. -/
theorem c6_malformed_witness :
    (([] : List ℚ).length ≠ CONTROL_N ∨ ([] : List ℚ).length ≠ CONTROL_N) ∧
    get_lag_adjusted_curvature 0 0 [] [] [] [] false =
      get_lag_adjusted_curvature 0 0 (List.replicate CONTROL_N 0)
        (List.replicate CONTROL_N 0) (List.replicate CONTROL_N 0)
        (List.replicate CONTROL_N 0) false ∧
    get_lag_adjusted_curvature 0 0 [] [] [] [] false = .ok (0, 0) := by
  have h := c6_malformed_fallback 0 0 [] [] [] [] false (by decide)
  exact ⟨by decide, h.1, by decide⟩
